import Mathlib

/-!
Verification of the command-interpretation pipeline of `src/Python/unreal_crew.py`
(the tools `execute_mcp_command` and `execute_mcp_command_batch`).

The shallow embedding models Python values as the inductive type `PyVal`
(JSON-shaped data: `None`, booleans, integers, strings, lists, dicts with
insertion-ordered string keys, mirroring Python 3.7+ dict ordering).  The
externally owned remote connection (`get_unreal_connection` /
`send_command`, declared a black box by the repository) is modelled by the
`Remote` structure: a connection-lookup truth value and a send function
that either returns a value or raises (modelled by `Except`).

Numeric literals are modelled for integers only; floating point JSON
numbers make the modelled parsers fail where Python would succeed, which
only shrinks the set of inputs the parsers accept and never changes a
produced value.
-/

namespace UnrealCrew

/-- Python / JSON values as handled by the pipeline. -/
inductive PyVal : Type where
  | vnull : PyVal
  | vbool : Bool → PyVal
  | vint : Int → PyVal
  | vstr : String → PyVal
  | vlist : List PyVal → PyVal
  | vdict : List (String × PyVal) → PyVal

/-- Python truthiness (`if x:`): `None`, `False`, `0`, empty string, empty
list and empty dict are falsy. -/
def pyFalsy : PyVal → Bool
  | .vnull => true
  | .vbool b => !b
  | .vint n => n == 0
  | .vstr s => s == ""
  | .vlist xs => xs.isEmpty
  | .vdict kvs => kvs.isEmpty

/-- First value bound to a key in a dict (Python dict keys are unique, so
the first binding is the binding). -/
def dictGet (kvs : List (String × PyVal)) (k : String) : Option PyVal :=
  match kvs with
  | [] => none
  | (k2, v) :: rest => if k2 = k then some v else dictGet rest k

/-- Whether the value is a Python dict. -/
def PyVal.isDict : PyVal → Bool
  | .vdict _ => true
  | _ => false

/-- Python `==` against a string operand: in Python a string compares
equal only to an equal string, so the comparison is specialized to a
string needle. -/
def pyEqStr : PyVal → String → Bool
  | .vstr s, k => s == k
  | _, _ => false

/-- Contiguous-substring test on character lists (Python `in` on `str`). -/
def pySubstr (needle : List Char) : List Char → Bool
  | [] => needle.isEmpty
  | c :: rest => List.isPrefixOf needle (c :: rest) || pySubstr needle rest

/-- Python `str.strip()` (leading and trailing whitespace), implemented
over the character list so that it reduces definitionally.  `Char.isWhitespace`
covers the blank, tab, carriage-return and newline characters stripped in
the modelled inputs. -/
def pyStrip (s : String) : String :=
  String.mk ((s.data.dropWhile Char.isWhitespace).reverse.dropWhile Char.isWhitespace).reverse

/-- Python `str.startswith`. -/
def pyStartsWith (s p : String) : Bool :=
  List.isPrefixOf p.data s.data

/-- Python `str.endswith`. -/
def pyEndsWith (s p : String) : Bool :=
  List.isPrefixOf p.data.reverse s.data.reverse

/-- Python `k in x` for a string `k`: dict key membership, list element
membership, substring test on strings; other receivers raise `TypeError`. -/
def pyContains : PyVal → String → Except String Bool
  | .vdict kvs, k => .ok (kvs.any (fun kv => kv.1 == k))
  | .vlist xs, k => .ok (xs.any (fun x => pyEqStr x k))
  | .vstr s, k => .ok (pySubstr k.data s.data)
  | _, _ => .error "TypeError: argument is not iterable"

/-- Python `x[k]` for a string `k`: only dicts accept string subscripts;
lists and strings raise `TypeError` (indices must be integers). -/
def pySubscript : PyVal → String → Except String PyVal
  | .vdict kvs, k =>
      match dictGet kvs k with
      | some v => .ok v
      | none => .error ("KeyError: " ++ k)
  | _, _ => .error "TypeError: indices must be integers"

/-- Python type name, used in f-string error messages via `type(x)`. -/
def pyTypeName : PyVal → String
  | .vnull => "NoneType"
  | .vbool _ => "bool"
  | .vint _ => "int"
  | .vstr _ => "str"
  | .vlist _ => "list"
  | .vdict _ => "dict"

/-- Apostrophe character, kept out of literals. -/
def sq : String := String.singleton (Char.ofNat 39)

/-- Text of Python `type(x)`, e.g. `<class ...>`. -/
def pyTypeRepr (v : PyVal) : String :=
  "<class " ++ sq ++ pyTypeName v ++ sq ++ ">"

/-- Opening brace character. -/
def lbraceC : Char := Char.ofNat 123

/-- Closing brace character. -/
def rbraceC : Char := Char.ofNat 125

/-- Apostrophe character. -/
def sqC : Char := Char.ofNat 39

/-- Comma-join a list of strings. -/
def commaSep : List String → String
  | [] => ""
  | [s] => s
  | s :: rest => s ++ ", " ++ commaSep rest

mutual

/-- Python `repr` of a value (string reprs are simplified to always use
single quotes without re-escaping; the modelled inputs contain no quotes
or control characters inside strings). -/
def pyRepr : PyVal → String
  | .vnull => "None"
  | .vbool b => if b then "True" else "False"
  | .vint n => toString n
  | .vstr s => sq ++ s ++ sq
  | .vlist xs => "[" ++ commaSep (pyReprList xs) ++ "]"
  | .vdict kvs =>
      String.singleton lbraceC ++ commaSep (pyReprDict kvs) ++ String.singleton rbraceC

/-- Reprs of the elements of a list. -/
def pyReprList : List PyVal → List String
  | [] => []
  | v :: rest => pyRepr v :: pyReprList rest

/-- Reprs of the `key: value` entries of a dict. -/
def pyReprDict : List (String × PyVal) → List String
  | [] => []
  | kv :: rest => (sq ++ kv.1 ++ sq ++ ": " ++ pyRepr kv.2) :: pyReprDict rest

end

/-- Python `str` of a value (`str` of a string is the string itself,
everything else matches `repr`). -/
def pyStr : PyVal → String
  | .vstr s => s
  | v => pyRepr v

/-! ## JSON parsing (`json.loads`)

A recursive-descent parser over a character list, fuelled by the input
length.  It accepts the JSON subset actually exercised by the pipeline:
`null`, `true`, `false`, (signed, decimal) integers, strings with the
common escapes, arrays and objects.  Inputs outside this subset (floats,
`\u` escapes) make the parser fail, which is conservative: it never
returns a value different from Python, it only accepts fewer strings. -/

/-- Whitespace characters recognized by the JSON and Python grammars:
blank, horizontal tab, line feed, carriage return. -/
def isWsChar (c : Char) : Bool :=
  c.toNat = 32 || c.toNat = 9 || c.toNat = 10 || c.toNat = 13

/-- Drop whitespace. -/
def skipWs : List Char → List Char
  | c :: rest => if isWsChar c then skipWs rest else c :: rest
  | [] => []

/-- Consume an expected literal character sequence. -/
def expectChars : List Char → List Char → Option (List Char)
  | [], cs => some cs
  | p :: ps, c :: cs => if c = p then expectChars ps cs else none
  | _ :: _, [] => none

/-- JSON string escape codes (`\uXXXX` is outside the modelled subset). -/
def escCharJson (e : Char) : Option Char :=
  if e = 'n' then some (Char.ofNat 10)
  else if e = 't' then some (Char.ofNat 9)
  else if e = 'r' then some (Char.ofNat 13)
  else if e = 'b' then some (Char.ofNat 8)
  else if e = 'f' then some (Char.ofNat 12)
  else if e = '"' ∨ e = '\\' ∨ e = '/' then some e
  else none

/-- Characters of a quoted string up to the closing quote `qc`, decoding
escapes with `esc`. -/
def strChars (qc : Char) (esc : Char → Option Char) :
    Nat → List Char → Option (List Char × List Char)
  | 0, _ => none
  | _ + 1, [] => none
  | fuel + 1, c :: rest =>
      if c = qc then some ([], rest)
      else if c = '\\' then
        match rest with
        | [] => none
        | e :: rest2 =>
            match esc e with
            | some ec =>
                match strChars qc esc fuel rest2 with
                | some (s, r) => some (ec :: s, r)
                | none => none
            | none => none
      else
        match strChars qc esc fuel rest with
        | some (s, r) => some (c :: s, r)
        | none => none

/-- Decimal digits to a natural number. -/
def digitsToNat (ds : List Char) : Nat :=
  ds.foldl (fun acc c => acc * 10 + (c.toNat - 48)) 0

/-- Parse an optionally-signed decimal integer. -/
def parseInt (cs : List Char) : Option (Int × List Char) :=
  match cs with
  | '-' :: rest =>
      let ds := rest.takeWhile Char.isDigit
      if ds.isEmpty then none
      else some (-(Int.ofNat (digitsToNat ds)), rest.dropWhile Char.isDigit)
  | _ =>
      let ds := cs.takeWhile Char.isDigit
      if ds.isEmpty then none
      else some (Int.ofNat (digitsToNat ds), cs.dropWhile Char.isDigit)

mutual

/-- Parse one JSON value. -/
def jValue : Nat → List Char → Option (PyVal × List Char)
  | 0, _ => none
  | fuel + 1, cs =>
      match skipWs cs with
      | [] => none
      | c :: rest =>
          if c = '"' then
            match strChars '"' escCharJson fuel rest with
            | some (s, r) => some (.vstr (String.mk s), r)
            | none => none
          else if c = '[' then
            match jElems fuel rest with
            | some (xs, r) => some (.vlist xs, r)
            | none => none
          else if c = lbraceC then
            match jMembers fuel rest with
            | some (kvs, r) => some (.vdict kvs, r)
            | none => none
          else if c = 't' then
            match expectChars ['r', 'u', 'e'] rest with
            | some r => some (.vbool true, r)
            | none => none
          else if c = 'f' then
            match expectChars ['a', 'l', 's', 'e'] rest with
            | some r => some (.vbool false, r)
            | none => none
          else if c = 'n' then
            match expectChars ['u', 'l', 'l'] rest with
            | some r => some (.vnull, r)
            | none => none
          else
            match parseInt (c :: rest) with
            | some (n, r) => some (.vint n, r)
            | none => none

/-- Parse JSON array elements after the opening bracket, including the
closing bracket. -/
def jElems : Nat → List Char → Option (List PyVal × List Char)
  | 0, _ => none
  | fuel + 1, cs =>
      match skipWs cs with
      | ']' :: rest => some ([], rest)
      | cs1 =>
          match jValue fuel cs1 with
          | some (v, cs2) =>
              match jElemsRest fuel cs2 with
              | some (vs, cs3) => some (v :: vs, cs3)
              | none => none
          | none => none

/-- Parse the rest of a JSON array: comma-separated values and the closing
bracket. -/
def jElemsRest : Nat → List Char → Option (List PyVal × List Char)
  | 0, _ => none
  | fuel + 1, cs =>
      match skipWs cs with
      | ']' :: rest => some ([], rest)
      | ',' :: rest =>
          match jValue fuel rest with
          | some (v, cs2) =>
              match jElemsRest fuel cs2 with
              | some (vs, cs3) => some (v :: vs, cs3)
              | none => none
          | none => none
      | _ => none

/-- Parse JSON object members after the opening brace, including the
closing brace. -/
def jMembers : Nat → List Char → Option (List (String × PyVal) × List Char)
  | 0, _ => none
  | fuel + 1, cs =>
      match skipWs cs with
      | c :: rest =>
          if c = rbraceC then some ([], rest)
          else
            match jMember fuel (c :: rest) with
            | some (kv, cs2) =>
                match jMembersRest fuel cs2 with
                | some (kvs, cs3) => some (kv :: kvs, cs3)
                | none => none
            | none => none
      | [] => none

/-- Parse one `"key": value` member. -/
def jMember : Nat → List Char → Option ((String × PyVal) × List Char)
  | 0, _ => none
  | fuel + 1, cs =>
      match skipWs cs with
      | '"' :: rest =>
          match strChars '"' escCharJson fuel rest with
          | some (ks, cs2) =>
              match skipWs cs2 with
              | ':' :: cs3 =>
                  match jValue fuel cs3 with
                  | some (v, cs4) => some ((String.mk ks, v), cs4)
                  | none => none
              | _ => none
          | none => none
      | _ => none

/-- Parse the rest of a JSON object: comma-separated members and the
closing brace. -/
def jMembersRest : Nat → List Char → Option (List (String × PyVal) × List Char)
  | 0, _ => none
  | fuel + 1, cs =>
      match skipWs cs with
      | c :: rest =>
          if c = rbraceC then some ([], rest)
          else if c = ',' then
            match jMember fuel rest with
            | some (kv, cs2) =>
                match jMembersRest fuel cs2 with
                | some (kvs, cs3) => some (kv :: kvs, cs3)
                | none => none
            | none => none
          else none
      | [] => none

end

/-- Model of `json.loads`: parse the whole string as one JSON value,
rejecting trailing garbage; `none` models `json.JSONDecodeError`. -/
def json_loads (s : String) : Option PyVal :=
  match jValue (s.data.length + 2) s.data with
  | some (v, rest) => if (skipWs rest).isEmpty then some v else none
  | none => none

/-! ## Python literal parsing (`ast.literal_eval`)

Model of the literal subset the repair chain relies on: `None`, `True`,
`False`, signed decimal integers, single- or double-quoted strings,
lists, and dicts with string-literal keys.  Tuples, sets, floats,
non-string dict keys and implicit string concatenation are outside the
modelled subset and make the parser fail; this is conservative in the
same sense as for `json_loads`. -/

/-- Python string escape codes (the common subset). -/
def escCharPy (e : Char) : Option Char :=
  if e = 'n' then some (Char.ofNat 10)
  else if e = 't' then some (Char.ofNat 9)
  else if e = 'r' then some (Char.ofNat 13)
  else if e = '"' ∨ e = '\\' ∨ e = sqC then some e
  else none

mutual

/-- Parse one Python literal value. -/
def pValue : Nat → List Char → Option (PyVal × List Char)
  | 0, _ => none
  | fuel + 1, cs =>
      match skipWs cs with
      | [] => none
      | c :: rest =>
          if c = '"' ∨ c = sqC then
            match strChars c escCharPy fuel rest with
            | some (s, r) => some (.vstr (String.mk s), r)
            | none => none
          else if c = '[' then
            match pElems fuel rest with
            | some (xs, r) => some (.vlist xs, r)
            | none => none
          else if c = lbraceC then
            match pMembers fuel rest with
            | some (kvs, r) => some (.vdict kvs, r)
            | none => none
          else if c = 'T' then
            match expectChars ['r', 'u', 'e'] rest with
            | some r => some (.vbool true, r)
            | none => none
          else if c = 'F' then
            match expectChars ['a', 'l', 's', 'e'] rest with
            | some r => some (.vbool false, r)
            | none => none
          else if c = 'N' then
            match expectChars ['o', 'n', 'e'] rest with
            | some r => some (.vnull, r)
            | none => none
          else
            match parseInt (c :: rest) with
            | some (n, r) => some (.vint n, r)
            | none => none

/-- Parse Python list elements after the opening bracket, including the
closing bracket. -/
def pElems : Nat → List Char → Option (List PyVal × List Char)
  | 0, _ => none
  | fuel + 1, cs =>
      match skipWs cs with
      | ']' :: rest => some ([], rest)
      | cs1 =>
          match pValue fuel cs1 with
          | some (v, cs2) =>
              match pElemsRest fuel cs2 with
              | some (vs, cs3) => some (v :: vs, cs3)
              | none => none
          | none => none

/-- Parse the rest of a Python list: comma-separated values and the
closing bracket. -/
def pElemsRest : Nat → List Char → Option (List PyVal × List Char)
  | 0, _ => none
  | fuel + 1, cs =>
      match skipWs cs with
      | ']' :: rest => some ([], rest)
      | ',' :: rest =>
          match pValue fuel rest with
          | some (v, cs2) =>
              match pElemsRest fuel cs2 with
              | some (vs, cs3) => some (v :: vs, cs3)
              | none => none
          | none => none
      | _ => none

/-- Parse Python dict members after the opening brace, including the
closing brace; keys must be string literals. -/
def pMembers : Nat → List Char → Option (List (String × PyVal) × List Char)
  | 0, _ => none
  | fuel + 1, cs =>
      match skipWs cs with
      | c :: rest =>
          if c = rbraceC then some ([], rest)
          else
            match pMember fuel (c :: rest) with
            | some (kv, cs2) =>
                match pMembersRest fuel cs2 with
                | some (kvs, cs3) => some (kv :: kvs, cs3)
                | none => none
            | none => none
      | [] => none

/-- Parse one Python `key: value` member (string-literal key). -/
def pMember : Nat → List Char → Option ((String × PyVal) × List Char)
  | 0, _ => none
  | fuel + 1, cs =>
      match pValue fuel cs with
      | some (.vstr k, cs2) =>
          match skipWs cs2 with
          | ':' :: cs3 =>
              match pValue fuel cs3 with
              | some (v, cs4) => some ((k, v), cs4)
              | none => none
          | _ => none
      | _ => none

/-- Parse the rest of a Python dict: comma-separated members and the
closing brace. -/
def pMembersRest : Nat → List Char → Option (List (String × PyVal) × List Char)
  | 0, _ => none
  | fuel + 1, cs =>
      match skipWs cs with
      | c :: rest =>
          if c = rbraceC then some ([], rest)
          else if c = ',' then
            match pMember fuel rest with
            | some (kv, cs2) =>
                match pMembersRest fuel cs2 with
                | some (kvs, cs3) => some (kv :: kvs, cs3)
                | none => none
            | none => none
          else none
      | [] => none

end

/-- Model of `ast.literal_eval`: parse the whole string as one Python
literal; `none` models the `ValueError`/`SyntaxError` failures the source
catches. -/
def ast_literal_eval (s : String) : Option PyVal :=
  match pValue (s.data.length + 2) s.data with
  | some (v, rest) => if (skipWs rest).isEmpty then some v else none
  | none => none

/-! ## The string-repair chain (source lines 278-362)

When `json.loads` on the whole input string fails, the source tries, in
order: (1) `ast.literal_eval` when the text looks like a Python literal
list, accepting the result only if every element is a dict with a
`command` key; (2) a textual `dict(...)`-to-JSON repair followed by
`json.loads`; (3) a final unconditional `ast.literal_eval` accepting any
list. -/

/-- Consume a run of letters `s` (part of the modelled `re.sub`). -/
def eatSs : List Char → List Char
  | 's' :: rest => eatSs rest
  | cs => cs

/-- Model of `re.sub(r',\\s*}', '}', text)`: the pattern is a raw string
with a doubled backslash, so it matches a comma, a literal backslash,
zero or more letters `s` and a closing brace, replacing the whole match
by the closing brace (left to right, non-overlapping). -/
def reSubFix : Nat → List Char → List Char
  | 0, cs => cs
  | fuel + 1, cs =>
      match cs with
      | [] => []
      | ',' :: '\\' :: rest =>
          match eatSs rest with
          | c :: rest2 =>
              if c = rbraceC then rbraceC :: reSubFix fuel rest2
              else ',' :: reSubFix fuel ('\\' :: rest)
          | [] => ',' :: reSubFix fuel ('\\' :: rest)
      | c :: rest => c :: reSubFix fuel rest

/-- The `dict(` → `{`, `)` → `}` and quote-normalisation repair applied to
a malformed input string (source lines 316-322). -/
def repairText (s : String) : String :=
  let s1 := (s.replace "dict(" (String.singleton lbraceC)).replace ")" (String.singleton rbraceC)
  let s2 := String.mk (reSubFix s1.data.length s1.data)
  (s2.replace ("\\" ++ sq) sq).replace sq "\""

/-- Every element is a dict containing a `command` key (the validity check
of the first repair attempt, source lines 293-299). -/
def allCommandDicts (xs : List PyVal) : Bool :=
  xs.all (fun x =>
    match x with
    | .vdict kvs => kvs.any (fun kv => kv.1 == "command")
    | _ => false)

/-- Guard of the first repair attempt (source lines 286-287): the text
contains `dict(`, `[` and `]`, or is bracketed after stripping. -/
def looksLikePyLiteral (s : String) : Bool :=
  (pySubstr "dict(".data s.data && pySubstr "[".data s.data && pySubstr "]".data s.data) ||
    (pyStartsWith (pyStrip s) "[" && pyEndsWith (pyStrip s) "]")

/-- First repair attempt: `ast.literal_eval`, accepted only when it yields
a list of command dicts. -/
def repairPrimero (s : String) : Option (List PyVal) :=
  if looksLikePyLiteral s then
    match ast_literal_eval s with
    | some (.vlist xs) => if allCommandDicts xs then some xs else none
    | _ => none
  else none

/-- Scan wrapper keys accepting only native list values (used by the
string branch, source lines 235 and 333). -/
def scanKeysListOnly (kvs : List (String × PyVal)) : List String → Option (List PyVal)
  | [] => none
  | k :: rest =>
      match dictGet kvs k with
      | some (.vlist xs) => some xs
      | _ => scanKeysListOnly kvs rest

/-- Second repair attempt (source lines 313-349): textual repair then
`json.loads`; a list is taken as is, a dict is searched under three
wrapper keys.  The trailing `elif` for a list of wrapper dicts (source
line 339) is dead code, being preceded by the `isinstance(..., list)`
branch. -/
def repairSegundo (s : String) : Option (List PyVal) :=
  if pySubstr "dict(".data s.data then
    match json_loads (repairText s) with
    | some (.vlist xs) => some xs
    | some (.vdict kvs) => scanKeysListOnly kvs ["commands_list", "commands", "command_list"]
    | _ => none
  else none

/-- Third repair attempt (source lines 351-362): a last unconditional
`ast.literal_eval`, accepting any list. -/
def repairTercero (s : String) : Option (List PyVal) :=
  match ast_literal_eval s with
  | some (.vlist xs) => some xs
  | _ => none

/-- The full repair chain run after a `json.loads` failure. -/
def repair_chain (s : String) : Option (List PyVal) :=
  match repairPrimero s with
  | some xs => some xs
  | none =>
      match repairSegundo s with
      | some xs => some xs
      | none => repairTercero s

/-! ## The remote endpoint

The repository treats `get_unreal_connection` and `send_command` as an
external black box (they live in `unreal_mcp_server`, outside the core).
`conn` is the truthiness of the connection lookup; `send` either returns
the raw response value (`vnull` models a `None` response) or raises,
modelled by `Except.error` carrying the exception text. -/
structure Remote : Type where
  conn : Bool
  send : String → PyVal → Except String PyVal

/-! ## Single-command invoker (`execute_mcp_command`, source lines 44-150)

The returned `Except String PyVal` is `.ok env` when the Python function
returns `json.dumps(env)` and `.error e` when an exception propagates to
the caller.  The second component lists the `send_command` invocations
made, in order.  Exception texts (`str(e)` in f-strings) and traceback
texts are runtime strings; they are modelled by the placeholders
`<JSONDecodeError>` and `<traceback>`. -/

/-- Envelope `dict(status="error", error=msg)`. -/
def errorEnv (msg : String) : PyVal :=
  .vdict [("status", .vstr "error"), ("error", .vstr msg)]

/-- Message of the invalid-parameter-format envelope (source line 94). -/
def invalidParamFormatMsg (v : PyVal) : String :=
  "Formato de parámetros inválido: se esperaba string JSON o dict, se recibió " ++ pyTypeRepr v

/-- Message of the parameter-JSON-decode-error envelope (source line 98). -/
def jsonParamErrMsg (s : String) : String :=
  "Error al parsear parámetros JSON string: <JSONDecodeError> - Input: " ++ s

/-- Message of the missing-required-parameter envelope (source line 120). -/
def missingParamMsg (p desc command : String) : String :=
  "Parámetro obligatorio " ++ sq ++ p ++ sq ++ " (" ++ desc ++
    ") no proporcionado para el comando " ++ sq ++ command ++ sq

/-- Message of the failed-connection-lookup envelope (source line 127). -/
def noConnectionMsg : String := "No se pudo conectar con Unreal Engine"

/-- Envelope for a `None` response (source line 132). -/
def noResponseEnv : PyVal :=
  errorEnv "No se recibió respuesta del servidor MCP"

/-- Message of the caught-exception envelope (source line 144). -/
def execErrMsg (command e : String) : String :=
  "Error ejecutando comando MCP " ++ sq ++ command ++ sq ++ ": " ++ e

/-- Envelope for an exception caught around the remote call (source
line 146). -/
def execErrEnv (command e : String) : PyVal :=
  .vdict [("status", .vstr "error"), ("command", .vstr command),
    ("error", .vstr (execErrMsg command e)), ("details", .vstr "<traceback>")]

/-- Parameter normalisation (source lines 83-102): a falsy value gives an
empty dict; a string is stripped and JSON-decoded (decode failure gives
an error envelope, returned early — modelled by `.error env`); a dict
passes through; any other type gives an error envelope. -/
def parse_params (params_json : PyVal) : Except PyVal PyVal :=
  if pyFalsy params_json then .ok (.vdict [])
  else
    match params_json with
    | .vstr s =>
        if pyStrip s = "" then .ok (.vdict [])
        else
          match json_loads s with
          | some v => .ok v
          | none => .error (errorEnv (jsonParamErrMsg s))
    | .vdict kvs => .ok (.vdict kvs)
    | other => .error (errorEnv (invalidParamFormatMsg other))

/-- Static required-parameter table with the descriptions used in error
messages (source lines 105-115). -/
def required_params (command : String) : List (String × String) :=
  if command = "create_blueprint" then
    [("name", "nombre del blueprint"),
     ("parent_class", "clase base (ej: Actor, Pawn, Character)")]
  else if command = "spawn_actor" then
    [("name", "nombre único del actor"), ("type", "tipo de actor (ej: CUBE, SPHERE)")]
  else if command = "add_component_to_blueprint" then
    [("blueprint_name", "nombre del blueprint"),
     ("component_type", "tipo de componente"),
     ("component_name", "nombre del componente")]
  else []

/-- Required-parameter check (source lines 117-122): the first parameter
that is not a member of `params`, or whose value is falsy, is reported;
the membership test and the subscript can raise (`.error`), which the
source does not catch. -/
def check_required (params : PyVal) : List (String × String) → Except String (Option (String × String))
  | [] => .ok none
  | (p, desc) :: rest =>
      match pyContains params p with
      | .error e => .error e
      | .ok mem =>
          if !mem then .ok (some (p, desc))
          else
            match pySubscript params p with
            | .error e => .error e
            | .ok v => if pyFalsy v then .ok (some (p, desc)) else check_required params rest

/-- The single-command invoker (source lines 44-150). -/
def execute_mcp_command (R : Remote) (command : String) (params_json : PyVal) :
    Except String PyVal × List (String × PyVal) :=
  match parse_params params_json with
  | .error env => (.ok env, [])
  | .ok params =>
      match check_required params (required_params command) with
      | .error e => (.error e, [])
      | .ok (some (p, desc)) => (.ok (errorEnv (missingParamMsg p desc command)), [])
      | .ok none =>
          if !R.conn then (.ok (errorEnv noConnectionMsg), [])
          else
            match R.send command params with
            | .error e => (.ok (execErrEnv command e), [(command, params)])
            | .ok resp =>
                match resp with
                | .vnull => (.ok noResponseEnv, [(command, params)])
                | .vdict kvs => (.ok (.vdict kvs), [(command, params)])
                | other =>
                    (.ok (.vdict [("status", .vstr "unknown"), ("raw_response", other)]),
                     [(command, params)])

/-! ## Batch input extraction (`execute_mcp_command_batch`, source
lines 152-442)

The result of the batch entry point is either a JSON value (the Python
function returns `json.dumps` of it) or a bare, non-JSON string returned
verbatim (source lines 428 and 437). -/

/-- Return shape of the batch entry point. -/
inductive BatchResult : Type where
  | json : PyVal → BatchResult
  | raw : String → BatchResult

/-- Whether the batch entry point returned a JSON document. -/
def BatchResult.isJson : BatchResult → Bool
  | .json _ => true
  | .raw _ => false

/-- Envelope for a structurally unrecognized parsed JSON input (source
line 270). -/
def invalidFormatEnv : PyVal :=
  .vdict [("status", .vstr "error"),
    ("message", .vstr "Invalid input format. Expected a list of command dictionaries, but received an unrecognized structure.")]

/-- Envelope for a string input that resisted parsing and repair (source
line 370). -/
def parseFailEnv : PyVal :=
  .vdict [("status", .vstr "error"),
    ("message", .vstr "Could not parse command list from input string, even after attempting repair/evaluation: <JSONDecodeError>")]

/-- Bare string returned for a dict input with no recoverable list
(source line 428). -/
def dictErrMsg : String :=
  "Error: Could not extract a valid command list from the dictionary input."

/-- Bare string returned when the processed value is not a list (source
line 437). -/
def notListErrMsg : String :=
  "Error: the Action Input is not a valid key, value dictionary."

/-- Extraction from a string input (source lines 215-376).  On
`json.loads` success: a list is used directly (the `elif` at source
line 233 for a list of wrapper dicts is dead code, shadowed by the
`isinstance(parsed_data, list)` branch above it); a dict is searched
under five wrapper keys (this branch, unlike the dict-input branch, does
not include `batch`), then treated as a single command if it has a
`command` key; anything else is a structural error.  On failure the
repair chain runs. -/
def extract_from_string (s : String) : Except PyVal (List PyVal) :=
  match json_loads s with
  | some (.vlist xs) => .ok xs
  | some (.vdict kvs) =>
      match scanKeysListOnly kvs ["commands_list", "commands", "command_list", "input", "data"] with
      | some xs => .ok xs
      | none =>
          if kvs.any (fun kv => kv.1 == "command") then .ok [.vdict kvs]
          else .error invalidFormatEnv
  | some _ => .error invalidFormatEnv
  | none =>
      match repair_chain s with
      | some xs => .ok xs
      | none => .error parseFailEnv

/-- Wrapper-key scan of the dict-input branch (source lines 382-400): a
native list value is used; a string value is JSON-decoded and used if it
decodes to a list; otherwise the scan continues with the next key. -/
def scanKeysDictBranch (kvs : List (String × PyVal)) : List String → Option (List PyVal)
  | [] => none
  | k :: rest =>
      match dictGet kvs k with
      | some (.vlist xs) => some xs
      | some (.vstr s) =>
          match json_loads s with
          | some (.vlist xs) => some xs
          | _ => scanKeysDictBranch kvs rest
      | _ => scanKeysDictBranch kvs rest

/-- Extraction from a dict input (source lines 378-428): six wrapper keys
are scanned; failing that, a dict with both `command` and `params` keys
is a single command; failing that, a single-entry dict whose value is a
list (or a string decoding to a list) supplies the list. -/
def extract_from_dict (kvs : List (String × PyVal)) : Option (List PyVal) :=
  match scanKeysDictBranch kvs ["commands_list", "commands", "command_list", "batch", "input", "data"] with
  | some xs => some xs
  | none =>
      if (dictGet kvs "command").isSome && (dictGet kvs "params").isSome then
        some [.vdict kvs]
      else
        match kvs with
        | [(_, .vlist xs)] => some xs
        | [(_, .vstr s)] =>
            match json_loads s with
            | some (.vlist xs) => some xs
            | _ => none
        | _ => none

/-! ## Batch execution loop (source lines 444-504) -/

/-- Error envelope for a list element that is a dict without a valid
`command` key (source lines 453-457). -/
def itemNoCommandEnv (i : Nat) (item : PyVal) : PyVal :=
  .vdict [("status", .vstr "error"), ("index", .vint (Int.ofNat i)),
    ("error", .vstr ("Elemento " ++ toString i ++
      " de la lista es un diccionario pero no tiene una clave " ++ sq ++ "command" ++ sq ++
      " válida o está vacía: " ++ pyRepr item))]

/-- Error envelope for a list element of unrecognized shape (source
lines 467-471). -/
def itemBadFormatEnv (i : Nat) (item : PyVal) : PyVal :=
  .vdict [("status", .vstr "error"), ("index", .vint (Int.ofNat i)),
    ("error", .vstr ("Elemento " ++ toString i ++
      " de la lista tiene formato no reconocido o inválido: tipo=" ++ pyTypeRepr item ++
      ", valor=" ++ (pyStr item).take 100))]

/-- Envelope when the per-item execution raises (source lines 492-497). -/
def batchItemErrEnv (command e : String) : PyVal :=
  .vdict [("status", .vstr "error"), ("command", .vstr command),
    ("error", .vstr ("Error inesperado ejecutando el comando individual " ++ sq ++ command ++ sq ++
      " dentro del batch: " ++ e)),
    ("details", .vstr "<traceback>")]

/-- Parameter lookup of one list element (source lines 452 and 458-460):
the value under `params` when it is a dict, otherwise an empty dict. -/
def item_params (kvs : List (String × PyVal)) : PyVal :=
  match dictGet kvs "params" with
  | some (.vdict pkvs) => .vdict pkvs
  | _ => .vdict []

/-- Per-item structural validation (source lines 448-471): a dict needs a
non-empty string under `command`, and its `params` value is used only if
it is a dict; a non-empty string is a command without parameters;
everything else is rejected in place. -/
def item_parse (i : Nat) : PyVal → Except PyVal (String × PyVal)
  | .vdict kvs =>
      match dictGet kvs "command" with
      | some (.vstr c) =>
          if c = "" then .error (itemNoCommandEnv i (.vdict kvs))
          else .ok (c, item_params kvs)
      | _ => .error (itemNoCommandEnv i (.vdict kvs))
  | .vstr s => if s = "" then .error (itemBadFormatEnv i (.vstr s)) else .ok (s, .vdict [])
  | other => .error (itemBadFormatEnv i other)

/-- Execution of one list element (source lines 447-497): structural
validation, then the single-command invoker; an exception propagating
out of the invoker is caught and becomes this item's envelope.  The
`json.loads` of the invoker's `json.dumps` output always succeeds, so
the `JSONDecodeError` branch at source line 487 is unreachable. -/
def run_item (R : Remote) (i : Nat) (cmd_item : PyVal) : PyVal × List (String × PyVal) :=
  match item_parse i cmd_item with
  | .error env => (env, [])
  | .ok (command, params) =>
      match execute_mcp_command R command params with
      | (.ok env, log) => (env, log)
      | (.error e, log) => (batchItemErrEnv command e, log)

/-- The execution loop: one envelope per element, in order, with the
remote-call logs concatenated. -/
def run_commands (R : Remote) : Nat → List PyVal → List PyVal × List (String × PyVal)
  | _, [] => ([], [])
  | i, c :: rest =>
      let hd := run_item R i c
      let tl := run_commands R (i + 1) rest
      (hd.1 :: tl.1, hd.2 ++ tl.2)

/-- Warning envelope for an empty extracted command list (source
line 442). -/
def warningEnv : PyVal :=
  .vdict [("status", .vstr "warning"), ("message", .vstr "Lista de comandos vacía")]

/-- Continuation shared by all extraction branches (source lines 439-504):
an empty list yields the warning envelope, otherwise the loop runs and
the result list is serialized. -/
def run_processed (R : Remote) (cmds : List PyVal) : BatchResult × List (String × PyVal) :=
  match cmds with
  | [] => (.json warningEnv, [])
  | _ :: _ =>
      let r := run_commands R 0 cmds
      (.json (.vlist r.1), r.2)

/-- The batch entry point (source lines 152-504).  `none` models a `None`
input for which the frame-introspection recovery of prior-task output
(source lines 191-203) found nothing, in which case the source returns
`json.dumps([])`.  A list input is used directly; a string input goes
through `extract_from_string`; a dict input through `extract_from_dict`,
returning the bare string of source line 428 on failure; any other input
type reaches the final `isinstance` guard and returns the bare string of
source line 437. -/
def execute_mcp_command_batch (R : Remote) (input_data : Option PyVal) :
    BatchResult × List (String × PyVal) :=
  match input_data with
  | none => (.json (.vlist []), [])
  | some v =>
      match v with
      | .vlist xs => run_processed R xs
      | .vstr s =>
          match extract_from_string s with
          | .error env => (.json env, [])
          | .ok xs => run_processed R xs
      | .vdict kvs =>
          match extract_from_dict kvs with
          | none => (.raw dictErrMsg, [])
          | some xs => run_processed R xs
      | _ => (.raw notListErrMsg, [])

/-! ## Concrete remote stubs and predicates used by the theorems -/

/-- Remote stub whose commands succeed with a minimal success envelope. -/
def sampleRemote : Remote :=
  ⟨true, fun _ _ => .ok (.vdict [("status", .vstr "success")])⟩

/-- Remote stub answering every command with an empty dict. -/
def emptyDictRemote : Remote :=
  ⟨true, fun _ _ => .ok (.vdict [])⟩

/-- Remote stub whose connection lookup fails. -/
def noConnRemote : Remote :=
  ⟨false, fun _ _ => .ok .vnull⟩

/-- Remote stub whose send always raises. -/
def raisingRemote : Remote :=
  ⟨true, fun _ _ => .error "boom"⟩

/-- Well-formed command candidate: a dict whose `command` key holds a
non-empty string. -/
def isWellFormedCandidate : PyVal → Bool
  | .vdict kvs =>
      match dictGet kvs "command" with
      | some (.vstr c) => !(c == "")
      | _ => false
  | _ => false

/-- Whether a list element passes both the per-item structural validation
and the required-parameter check, so that the invoker would reach the
connection lookup. -/
def itemPassesValidation (i : Nat) (c : PyVal) : Bool :=
  match item_parse i c with
  | .error _ => false
  | .ok (command, params) =>
      match check_required params (required_params command) with
      | .ok none => true
      | _ => false

/-- The example input of spec §8: a JSON object whose `parameters` mapping
supplies `name` but not `parent_class`. -/
def c2input : String :=
  "\x7b\"command\":\"create_blueprint\",\"parameters\":\x7b\"name\":\"BP_X\"\x7d\x7d"

/-! ## Helper lemmas -/

/-- The loop produces exactly one envelope per list element. -/
theorem run_commands_length (R : Remote) (i : Nat) (L : List PyVal) :
    (run_commands R i L).1.length = L.length := by
  induction L generalizing i with
  | nil => simp [run_commands]
  | cons c rest ih => simp [run_commands, ih]

/-- The loop's envelopes are the per-item envelopes, index-aligned. -/
theorem run_commands_get (R : Remote) (L : List PyVal) : ∀ (i j : Nat),
    (run_commands R i L).1[j]? = (L[j]?).map (fun c => (run_item R (i + j) c).1) := by
  induction L with
  | nil => intro i j; simp [run_commands]
  | cons c rest ih =>
      intro i j
      cases j with
      | zero => simp [run_commands]
      | succ j =>
          have h2 : i + 1 + j = i + (j + 1) := by omega
          simp only [run_commands, List.getElem?_cons_succ, ih (i + 1) j, h2]

/-- The loop distributes over list concatenation, shifting indices. -/
theorem run_commands_append (R : Remote) (L1 L2 : List PyVal) : ∀ i : Nat,
    run_commands R i (L1 ++ L2) =
      ((run_commands R i L1).1 ++ (run_commands R (i + L1.length) L2).1,
       (run_commands R i L1).2 ++ (run_commands R (i + L1.length) L2).2) := by
  induction L1 with
  | nil => intro i; simp [run_commands]
  | cons c rest ih =>
      intro i
      show run_commands R i (c :: (rest ++ L2)) = _
      have h2 : i + (rest.length + 1) = i + 1 + rest.length := by omega
      simp only [run_commands, ih (i + 1), List.length_cons, h2]
      simp [List.append_assoc]

/-- Parameter normalisation is the identity on dict parameters. -/
theorem parse_params_dict (pk : List (String × PyVal)) :
    parse_params (.vdict pk) = .ok (.vdict pk) := by
  cases pk <;> simp [parse_params, pyFalsy]

/-- A key reported present by `any` is found by `dictGet`. -/
theorem dictGet_isSome_of_any (kvs : List (String × PyVal)) (k : String)
    (h : kvs.any (fun kv => kv.1 == k) = true) : ∃ v, dictGet kvs k = some v := by
  induction kvs with
  | nil => simp at h
  | cons kv rest ih =>
      by_cases hk : kv.1 = k
      · exact ⟨kv.2, by simp [dictGet, hk]⟩
      · have h2 : rest.any (fun kv => kv.1 == k) = true := by
          simp [List.any_cons, hk] at h
          simpa using h
        obtain ⟨v, hv⟩ := ih h2
        exact ⟨v, by simp [dictGet, hk, hv]⟩

/-- The required-parameter check never raises on dict parameters. -/
theorem check_required_dict_ok (pk : List (String × PyVal)) :
    ∀ l : List (String × String), ∃ r, check_required (.vdict pk) l = .ok r := by
  intro l
  induction l with
  | nil => exact ⟨none, rfl⟩
  | cons pd rest ih =>
      obtain ⟨p, desc⟩ := pd
      by_cases hm : pk.any (fun kv => kv.1 == p) = true
      · obtain ⟨v, hv⟩ := dictGet_isSome_of_any pk p hm
        by_cases hf : pyFalsy v = true
        · exact ⟨some (p, desc), by simp [check_required, pyContains, hm, pySubscript, hv, hf]⟩
        · obtain ⟨r, hr⟩ := ih
          exact ⟨r, by simp [check_required, pyContains, hm, pySubscript, hv, hf, hr]⟩
      · exact ⟨some (p, desc), by simp [check_required, pyContains, hm]⟩

/-- The per-item parameters are always a dict. -/
theorem item_params_shape (kvs : List (String × PyVal)) :
    ∃ pk, item_params kvs = .vdict pk := by
  unfold item_params
  cases h : dictGet kvs "params" with
  | none => exact ⟨[], rfl⟩
  | some v => cases v <;> exact ⟨_, rfl⟩

/-- Structural validation hands the invoker dict parameters. -/
theorem item_parse_dict_params (i : Nat) (c : PyVal) (cmd : String) (params : PyVal)
    (h : item_parse i c = .ok (cmd, params)) : ∃ pk, params = .vdict pk := by
  cases c with
  | vdict kvs =>
      simp only [item_parse] at h
      cases hg : dictGet kvs "command" with
      | none => rw [hg] at h; cases h
      | some v =>
          rw [hg] at h
          cases v with
          | vstr s =>
              by_cases hs : s = ""
              · simp [hs] at h
              · simp [hs] at h
                obtain ⟨pk, hpk⟩ := item_params_shape kvs
                exact ⟨pk, by rw [← h.2, hpk]⟩
          | vnull => cases h
          | vbool b => cases h
          | vint n => cases h
          | vlist xs => cases h
          | vdict kvs2 => cases h
  | vstr s =>
      simp only [item_parse] at h
      by_cases hs : s = ""
      · simp [hs] at h
      · simp [hs] at h
        exact ⟨[], h.2.symm⟩
  | vnull => cases h
  | vbool b => cases h
  | vint n => cases h
  | vlist xs => cases h

/-- The shared continuation always produces a JSON result. -/
theorem run_processed_isJson (R : Remote) (xs : List PyVal) :
    (run_processed R xs).1.isJson = true := by
  cases xs <;> simp [run_processed, BatchResult.isJson]

/-! ## Claims -/

/-- Claim C1, counterexample: the claim quantifies over every native list
of N well-formed candidates; at N = 0 the batch executor returns a single
warning envelope (source line 442), not a result sequence of zero
envelopes. -/
theorem c1_counterexample :
    execute_mcp_command_batch sampleRemote (some (.vlist [])) = (.json warningEnv, []) ∧
    BatchResult.json warningEnv ≠ BatchResult.json (.vlist []) :=
  ⟨rfl, by simp [warningEnv]⟩

/-- Claim C1 (amended to non-empty lists): for every non-empty native
list of well-formed command candidates the batch executor returns a JSON
list of exactly N envelopes, with the j-th envelope produced by the j-th
candidate. -/
theorem c1_batch_cardinality_order (R : Remote) (L : List PyVal) (hne : L ≠ [])
    (hwf : ∀ c ∈ L, isWellFormedCandidate c = true) :
    execute_mcp_command_batch R (some (.vlist L)) =
      (.json (.vlist (run_commands R 0 L).1), (run_commands R 0 L).2) ∧
    (run_commands R 0 L).1.length = L.length ∧
    ∀ j : Nat, (run_commands R 0 L).1[j]? = (L[j]?).map (fun c => (run_item R j c).1) := by
  refine ⟨?_, run_commands_length R 0 L, fun j => by simpa using run_commands_get R L 0 j⟩
  cases L with
  | nil => exact absurd rfl hne
  | cons c rest => rfl

/-- Claim C1, witness. -/
theorem c1_witness :
    execute_mcp_command_batch sampleRemote
        (some (.vlist [.vdict [("command", .vstr "get_actors_in_level")]])) =
      (.json (.vlist [.vdict [("status", .vstr "success")]]),
       [("get_actors_in_level", .vdict [])]) := by
  have h := c1_batch_cardinality_order sampleRemote
      [.vdict [("command", .vstr "get_actors_in_level")]] (by simp)
      (by intro c hc; rw [List.mem_singleton] at hc; subst hc; rfl)
  exact h.1.trans rfl

/-- Claim C2, counterexample: on the spec §8 example input the single
envelope names `name`, not `parent_class` (its message does not even
contain the text `parent_class`), because the loop reads the key `params`
and ignores `parameters`, leaving both required parameters missing and
`name` first. -/
theorem c2_counterexample :
    execute_mcp_command_batch sampleRemote (some (.vstr c2input)) =
      (.json (.vlist [errorEnv (missingParamMsg "name" "nombre del blueprint" "create_blueprint")]), []) ∧
    pySubstr "parent_class".data
      (missingParamMsg "name" "nombre del blueprint" "create_blueprint").data = false :=
  ⟨rfl, rfl⟩

/-- Claim C2 (amended: the missing parameter reported is `name`): for the
spec §8 example input the pipeline returns exactly one validation-error
envelope naming `name` as the missing required parameter, and makes zero
remote calls, whatever the remote behaves like. -/
theorem c2_validation_example (R : Remote) :
    execute_mcp_command_batch R (some (.vstr c2input)) =
      (.json (.vlist [errorEnv (missingParamMsg "name" "nombre del blueprint" "create_blueprint")]), []) :=
  rfl

/-- Claim C8: a JSON string that decodes to a candidate list produces a
result identical in content and order to passing the list natively. -/
theorem c8_json_string_native_equiv (R : Remote) (s : String) (L : List PyVal)
    (h : json_loads s = some (.vlist L)) :
    execute_mcp_command_batch R (some (.vstr s)) =
      execute_mcp_command_batch R (some (.vlist L)) := by
  simp [execute_mcp_command_batch, extract_from_string, h]

/-- Claim C8, witness. -/
theorem c8_witness :
    json_loads "[\"get_actors_in_level\"]" = some (.vlist [.vstr "get_actors_in_level"]) ∧
    execute_mcp_command_batch sampleRemote (some (.vstr "[\"get_actors_in_level\"]")) =
      execute_mcp_command_batch sampleRemote (some (.vlist [.vstr "get_actors_in_level"])) :=
  ⟨rfl, c8_json_string_native_equiv sampleRemote "[\"get_actors_in_level\"]"
    [.vstr "get_actors_in_level"] rfl⟩

/-- Claim C9: wrapping a command list under one of the wrapper keys
`commands_list`, `commands` or `command_list` of a mapping input is
equivalent to passing the list directly. -/
theorem c9_wrapper_key_equiv (R : Remote) (L : List PyVal) (k : String)
    (hk : k = "commands_list" ∨ k = "commands" ∨ k = "command_list") :
    execute_mcp_command_batch R (some (.vdict [(k, .vlist L)])) =
      execute_mcp_command_batch R (some (.vlist L)) := by
  rcases hk with rfl | rfl | rfl <;> rfl

/-- Claim C9, witness. -/
theorem c9_witness :
    execute_mcp_command_batch sampleRemote
        (some (.vdict [("commands", .vlist [.vdict [("command", .vstr "get_actors_in_level")]])])) =
      execute_mcp_command_batch sampleRemote
        (some (.vlist [.vdict [("command", .vstr "get_actors_in_level")]])) :=
  c9_wrapper_key_equiv sampleRemote [.vdict [("command", .vstr "get_actors_in_level")]]
    "commands" (Or.inr (Or.inl rfl))

/-- Claim C10: a null input with no recoverable prior-task output yields
the empty JSON result list — not a warning envelope, not an error
envelope — and zero remote calls, while an empty extracted list yields a
single warning envelope. -/
theorem c10_none_vs_empty (R : Remote) :
    execute_mcp_command_batch R none = (.json (.vlist []), []) ∧
    execute_mcp_command_batch R (some (.vlist [])) = (.json warningEnv, []) ∧
    PyVal.vlist [] ≠ warningEnv ∧
    (∀ m : String, PyVal.vlist [] ≠ errorEnv m) ∧
    (∀ m : String, warningEnv ≠ errorEnv m) := by
  refine ⟨rfl, rfl, by simp [warningEnv], fun m => by simp [errorEnv], fun m => ?_⟩
  simp [warningEnv, errorEnv]

/-- Claim C3, counterexample: a mapping response without a `status` field
is passed through unchanged — the returned envelope has no `status` key
at all, instead of one defaulted to `success` as the claim states. -/
theorem c3_counterexample :
    execute_mcp_command emptyDictRemote "get_actors_in_level" .vnull =
      (.ok (.vdict []), [("get_actors_in_level", .vdict [])]) ∧
    dictGet [] "status" = none :=
  ⟨rfl, rfl⟩

/-- Claim C3 (amended: a mapping result is passed through unchanged, with
no status field added): for every invocation that reaches the remote
call, a null result becomes the no-response error envelope, a non-mapping
result is wrapped with status `unknown` and the raw value, and a mapping
result is returned exactly as received. -/
theorem c3_response_normalization (R : Remote) (command : String) (pj params : PyVal)
    (hp : parse_params pj = .ok params)
    (hv : check_required params (required_params command) = .ok none)
    (hc : R.conn = true) :
    (R.send command params = .ok .vnull →
      execute_mcp_command R command pj = (.ok noResponseEnv, [(command, params)])) ∧
    (∀ kvs, R.send command params = .ok (.vdict kvs) →
      execute_mcp_command R command pj = (.ok (.vdict kvs), [(command, params)])) ∧
    (∀ v, R.send command params = .ok v → v ≠ .vnull → v.isDict = false →
      execute_mcp_command R command pj =
        (.ok (.vdict [("status", .vstr "unknown"), ("raw_response", v)]), [(command, params)])) := by
  refine ⟨fun h => ?_, fun kvs h => ?_, fun v h hn hd => ?_⟩
  · simp [execute_mcp_command, hp, hv, hc, h]
  · simp [execute_mcp_command, hp, hv, hc, h]
  · cases v with
    | vnull => exact absurd rfl hn
    | vdict kvs => simp [PyVal.isDict] at hd
    | vbool b => simp [execute_mcp_command, hp, hv, hc, h]
    | vint n => simp [execute_mcp_command, hp, hv, hc, h]
    | vstr s => simp [execute_mcp_command, hp, hv, hc, h]
    | vlist xs => simp [execute_mcp_command, hp, hv, hc, h]

/-- Claim C3, witness. -/
theorem c3_witness :
    execute_mcp_command emptyDictRemote "get_actors_in_level" .vnull =
      (.ok (.vdict []), [("get_actors_in_level", .vdict [])]) :=
  (c3_response_normalization emptyDictRemote "get_actors_in_level" .vnull (.vdict [])
    rfl rfl rfl).2.1 [] rfl

/-- Claim C4, counterexample: the invoker can propagate an exception to
its caller — with a JSON-string parameter decoding to a list, the
required-parameter check of `create_blueprint` subscripts the list with a
string and raises `TypeError` before the `try` block is entered. -/
theorem c4_counterexample :
    execute_mcp_command sampleRemote "create_blueprint" (.vstr "[\"name\"]") =
      (.error "TypeError: indices must be integers", []) :=
  rfl

/-- Claim C4 (amended: no exception propagates provided the decoded
parameters are a mapping; exceptions raised by the remote call itself
are always caught): with mapping parameters the invoker returns an
envelope in every case; a decode-failure returns its error envelope; and
an exception raised by `send_command` is converted into a structured
error envelope carrying the command name and the error message. -/
theorem c4_exception_handling (R : Remote) (command : String) (pj : PyVal) :
    (∀ pk, parse_params pj = .ok (.vdict pk) →
      ∃ env, (execute_mcp_command R command pj).1 = .ok env) ∧
    (∀ env, parse_params pj = .error env →
      execute_mcp_command R command pj = (.ok env, [])) ∧
    (∀ pk e, parse_params pj = .ok (.vdict pk) →
      check_required (.vdict pk) (required_params command) = .ok none →
      R.conn = true → R.send command (.vdict pk) = .error e →
      execute_mcp_command R command pj =
        (.ok (execErrEnv command e), [(command, .vdict pk)])) := by
  refine ⟨fun pk hp => ?_, fun env hp => ?_, fun pk e hp hv hc hs => ?_⟩
  · obtain ⟨r, hr⟩ := check_required_dict_ok pk (required_params command)
    cases r with
    | some pd =>
        exact ⟨errorEnv (missingParamMsg pd.1 pd.2 command),
          by simp [execute_mcp_command, hp, hr]⟩
    | none =>
        by_cases hc : R.conn = true
        · cases hs : R.send command (.vdict pk) with
          | error e => exact ⟨execErrEnv command e, by simp [execute_mcp_command, hp, hr, hc, hs]⟩
          | ok resp =>
              cases resp with
              | vnull => exact ⟨noResponseEnv, by simp [execute_mcp_command, hp, hr, hc, hs]⟩
              | vdict kvs => exact ⟨.vdict kvs, by simp [execute_mcp_command, hp, hr, hc, hs]⟩
              | vbool b =>
                  exact ⟨.vdict [("status", .vstr "unknown"), ("raw_response", .vbool b)],
                    by simp [execute_mcp_command, hp, hr, hc, hs]⟩
              | vint n =>
                  exact ⟨.vdict [("status", .vstr "unknown"), ("raw_response", .vint n)],
                    by simp [execute_mcp_command, hp, hr, hc, hs]⟩
              | vstr s =>
                  exact ⟨.vdict [("status", .vstr "unknown"), ("raw_response", .vstr s)],
                    by simp [execute_mcp_command, hp, hr, hc, hs]⟩
              | vlist xs =>
                  exact ⟨.vdict [("status", .vstr "unknown"), ("raw_response", .vlist xs)],
                    by simp [execute_mcp_command, hp, hr, hc, hs]⟩
        · have hc2 : R.conn = false := by revert hc; cases R.conn <;> simp
          exact ⟨errorEnv noConnectionMsg, by simp [execute_mcp_command, hp, hr, hc2]⟩
  · simp [execute_mcp_command, hp]
  · simp [execute_mcp_command, hp, hv, hc, hs]

/-- Claim C4, witness. -/
theorem c4_witness :
    execute_mcp_command raisingRemote "get_actors_in_level" .vnull =
      (.ok (execErrEnv "get_actors_in_level" "boom"), [("get_actors_in_level", .vdict [])]) :=
  (c4_exception_handling raisingRemote "get_actors_in_level" .vnull).2.2 [] "boom"
    rfl rfl rfl rfl

/-- Claim C5, counterexample: with a failed connection lookup, a
candidate that fails required-parameter validation yields the validation
error envelope, not an envelope indicating no connection. -/
theorem c5_counterexample :
    execute_mcp_command_batch noConnRemote
        (some (.vlist [.vdict [("command", .vstr "create_blueprint"), ("params", .vdict [])]])) =
      (.json (.vlist [errorEnv (missingParamMsg "name" "nombre del blueprint" "create_blueprint")]), []) ∧
    missingParamMsg "name" "nombre del blueprint" "create_blueprint" ≠ noConnectionMsg :=
  ⟨rfl, by decide⟩

/-- Claim C5 (amended: only the candidates that pass structural and
required-parameter validation yield the no-connection envelope; the
others yield their validation envelopes): with a null connection lookup a
non-empty batch still produces one envelope per candidate, nothing
crashes, and every candidate that passes validation yields the
no-connection error envelope with no remote call. -/
theorem c5_no_connection (R : Remote) (hconn : R.conn = false)
    (L : List PyVal) (hne : L ≠ []) :
    execute_mcp_command_batch R (some (.vlist L)) =
      (.json (.vlist (run_commands R 0 L).1), (run_commands R 0 L).2) ∧
    (run_commands R 0 L).1.length = L.length ∧
    ∀ (i : Nat) (c : PyVal), itemPassesValidation i c = true →
      run_item R i c = (errorEnv noConnectionMsg, []) := by
  refine ⟨?_, run_commands_length R 0 L, fun i c h => ?_⟩
  · cases L with
    | nil => exact absurd rfl hne
    | cons c rest => rfl
  · unfold itemPassesValidation at h
    cases hip : item_parse i c with
    | error env => rw [hip] at h; simp at h
    | ok cp =>
        obtain ⟨cmd, params⟩ := cp
        rw [hip] at h
        have h2 : (match check_required params (required_params cmd) with
            | Except.ok none => true
            | _ => false) = true := h
        cases hcr : check_required params (required_params cmd) with
        | error e => rw [hcr] at h2; simp at h2
        | ok o =>
            cases o with
            | some pd => rw [hcr] at h2; simp at h2
            | none =>
                obtain ⟨pk, hpk⟩ := item_parse_dict_params i c cmd params hip
                subst hpk
                simp [run_item, hip, execute_mcp_command, parse_params_dict, hcr, hconn]

/-- Claim C5, witness. -/
theorem c5_witness :
    execute_mcp_command_batch noConnRemote
        (some (.vlist [.vdict [("command", .vstr "get_actors_in_level")]])) =
      (.json (.vlist [errorEnv noConnectionMsg]), []) := by
  have h := (c5_no_connection noConnRemote rfl
      [.vdict [("command", .vstr "get_actors_in_level")]] (by simp)).1
  exact h.trans rfl

/-- Claim C6: a batch candidate whose command is in the required-parameter
table and whose (dict-normalised) parameters leave a required key missing
or falsy yields the validation-error envelope in place, contributes no
remote call, and the candidates after it are still validated and executed
as usual. -/
theorem c6_validation_isolation (R : Remote) (i : Nat)
    (kvs pk : List (String × PyVal)) (c p desc : String)
    (hc : dictGet kvs "command" = some (.vstr c)) (hcne : ¬ c = "")
    (hpk : item_params kvs = .vdict pk)
    (hmiss : check_required (.vdict pk) (required_params c) = .ok (some (p, desc))) :
    run_item R i (.vdict kvs) = (errorEnv (missingParamMsg p desc c), []) ∧
    ∀ pre post : List PyVal,
      run_commands R 0 (pre ++ .vdict kvs :: post) =
        ((run_commands R 0 pre).1 ++
          errorEnv (missingParamMsg p desc c) :: (run_commands R (pre.length + 1) post).1,
         (run_commands R 0 pre).2 ++ (run_commands R (pre.length + 1) post).2) := by
  have hitem : ∀ j : Nat, run_item R j (.vdict kvs) = (errorEnv (missingParamMsg p desc c), []) := by
    intro j
    simp [run_item, item_parse, hc, hcne, hpk, execute_mcp_command, parse_params_dict, hmiss]
  refine ⟨hitem i, fun pre post => ?_⟩
  rw [run_commands_append R pre (.vdict kvs :: post) 0]
  simp only [run_commands, hitem, Nat.zero_add]
  simp

/-- Claim C6, witness. -/
theorem c6_witness :
    run_commands sampleRemote 0
        [.vdict [("command", .vstr "create_blueprint"), ("params", .vdict [("name", .vstr "BP_X")])],
         .vdict [("command", .vstr "get_actors_in_level")]] =
      ([errorEnv (missingParamMsg "parent_class" "clase base (ej: Actor, Pawn, Character)" "create_blueprint"),
        .vdict [("status", .vstr "success")]],
       [("get_actors_in_level", .vdict [])]) := by
  have h := (c6_validation_isolation sampleRemote 0
      [("command", .vstr "create_blueprint"), ("params", .vdict [("name", .vstr "BP_X")])]
      [("name", .vstr "BP_X")] "create_blueprint" "parent_class"
      "clase base (ej: Actor, Pawn, Character)" rfl (by decide) rfl rfl).2
      [] [.vdict [("command", .vstr "get_actors_in_level")]]
  exact h.trans rfl

/-- Claim C7, counterexample: a mapping input from which no command list
is recoverable yields the bare, non-JSON message of source line 428, not
a structured error envelope. -/
theorem c7_counterexample :
    execute_mcp_command_batch sampleRemote
        (some (.vdict [("foo", .vint 1), ("bar", .vint 2)])) =
      (.raw dictErrMsg, []) ∧
    BatchResult.isJson (.raw dictErrMsg) = false :=
  ⟨rfl, rfl⟩

/-- Claim C7 (amended: the entry point never raises and always returns
either a JSON document or one of two fixed bare error-message strings;
null, list and string inputs always get a JSON result — in particular a
string that resists parsing and repair gets exactly one error envelope —
while a mapping with no recoverable list, or an input of any other type,
gets a bare message). -/
theorem c7_result_shape (R : Remote) (input : Option PyVal) :
    ((execute_mcp_command_batch R input).1.isJson = true ∨
      (execute_mcp_command_batch R input).1 = .raw dictErrMsg ∨
      (execute_mcp_command_batch R input).1 = .raw notListErrMsg) ∧
    (∀ s, input = some (.vstr s) →
      (execute_mcp_command_batch R input).1.isJson = true) ∧
    (∀ xs, input = some (.vlist xs) →
      (execute_mcp_command_batch R input).1.isJson = true) ∧
    (input = none → execute_mcp_command_batch R input = (.json (.vlist []), [])) ∧
    (∀ s, input = some (.vstr s) → json_loads s = none → repair_chain s = none →
      execute_mcp_command_batch R input = (.json parseFailEnv, [])) := by
  have hstr : ∀ s, (execute_mcp_command_batch R (some (.vstr s))).1.isJson = true := by
    intro s
    cases hx : extract_from_string s with
    | error env => simp [execute_mcp_command_batch, hx, BatchResult.isJson]
    | ok xs => simp [execute_mcp_command_batch, hx, run_processed_isJson]
  refine ⟨?_, fun s hs => hs ▸ hstr s, fun xs hs => ?_, fun hs => ?_, fun s hs hj hr => ?_⟩
  · cases input with
    | none => left; rfl
    | some v =>
        cases v with
        | vstr s => exact Or.inl (hstr s)
        | vlist xs => exact Or.inl (run_processed_isJson R xs)
        | vdict kvs =>
            cases hx : extract_from_dict kvs with
            | none => exact Or.inr (Or.inl (by simp [execute_mcp_command_batch, hx]))
            | some xs =>
                exact Or.inl (by simp [execute_mcp_command_batch, hx, run_processed_isJson])
        | vnull => exact Or.inr (Or.inr rfl)
        | vbool b => exact Or.inr (Or.inr rfl)
        | vint n => exact Or.inr (Or.inr rfl)
  · subst hs; exact run_processed_isJson R xs
  · subst hs; rfl
  · subst hs
    simp [execute_mcp_command_batch, extract_from_string, hj, hr]

/-- Claim C7, witness. -/
theorem c7_witness :
    (execute_mcp_command_batch sampleRemote (some (.vstr "garbage"))).1.isJson = true :=
  (c7_result_shape sampleRemote (some (.vstr "garbage"))).2.1 "garbage" rfl

end UnrealCrew
